import Mathlib

/-!
Shallow embedding of the plugin-loading and hook-dispatch runtime in
src/src/ai/backend/gateway/plugin.py (classes WebAppPluginContext and
HookPluginContext) together with the vocabulary types in
src/src/ai/backend/manager/plugin/types.py and the hook contract in
src/src/ai/backend/manager/plugin/abc.py.

Modelling conventions:
  - Python exceptions become values of the type Fault; code that may raise
    returns Except Fault _.
  - asyncio.gather(..., return_exceptions=True) captures each coroutine
    outcome as a value in the result list; asyncio.gather without that flag
    runs every coroutine to completion but propagates the first raised
    exception to the awaiter (the others are discarded).
  - Each context object is a structure holding exactly the instance
    attributes of the Python class; methods are functions from the structure
    (mutation is explicit state passing, and a method that can both mutate
    and raise returns the new state together with an Option Fault).
  - HookPluginContext.init additionally emits a trace of InitEvent values
    recording the order in which the loop body touches each plugin; the
    operational content is unchanged.
  - HookPluginContext.shutdown additionally returns the list of indices of
    the hooks whose shutdown coroutine was created (i.e. invoked); the
    asyncio.gather call creates one coroutine per element of self._hooks.
-/

/-- HookEventTypes from src/src/ai/backend/manager/plugin/types.py. -/
inductive HookEventTypes where
  | USER_SIGNUP
  | USER_LOGIN
  | KERNEL_START
  | KERNEL_TERMINATE
  | VFOLDER_CREATE
  | VFOLDER_DELETE
deriving DecidableEq

/-- HookResult from src/src/ai/backend/manager/plugin/types.py. -/
inductive HookResult where
  | BYPASS
  | REJECTED
  | MODIFIED
deriving DecidableEq

/-- A Python exception value: either a RuntimeError with its message (the
only kind the plugin contexts raise themselves) or an arbitrary other
exception identified by a tag. -/
inductive Fault where
  | runtimeError (msg : String)
  | exc (tag : Nat)
deriving DecidableEq

/-- Event argument passed to dispatch_event; opaque to the dispatcher. -/
abbrev EventArg := Nat

/-- A hook handler: an async callable from the event argument to a
HookResult, which may raise (Except.error). -/
abbrev Handler := EventArg → Except Fault HookResult

/-- Configuration mapping handed to plugin factories (currently the empty
mapping in the source). -/
abbrev Config := List (String × String)

/-- CORS options mapping handed to webapp plugin factories; opaque here. -/
abbrev CorsOptions := List (String × String)

/-- A global middleware function; opaque to the context. -/
abbrev Middleware := Nat

/-- An activated hook plugin, i.e. the AbstractHook contract of
src/src/ai/backend/manager/plugin/abc.py: get_handlers() is its binding
list, and the outcomes of its own init() and shutdown() coroutines are
recorded as data. -/
structure AbstractHook where
  get_handlers : List (HookEventTypes × Handler)
  init_outcome : Except Fault Unit
  shutdown_outcome : Except Fault Unit

/-- A hook plugin module: its module-level init(config) factory, which
returns an AbstractHook or raises. -/
structure HookModule where
  init : Config → Except Fault AbstractHook

/-- The subapp value a webapp plugin factory returns: whether it is an
aiohttp.web.Application instance, whether it is iterable, and its item
mapping (used for the prefix-key check). -/
structure SubApp where
  is_web_application : Bool
  is_iterable : Bool
  items : List (String × String)
deriving DecidableEq

/-- Item lookup on a SubApp, modelling subapp[key]. -/
def SubApp.getItem (s : SubApp) (k : String) : Option String :=
  (s.items.find? (fun p => p.1 == k)).map (fun p => p.2)

/-- The check in WebAppPluginContext.init on line 70 of plugin.py:
the routing key is absent from the subapp mapping, or its value is falsy
(the empty string). -/
def badRoutingKey (s : SubApp) : Bool :=
  match s.getItem "prefix" with
  | none => true
  | some v => v == ""

/-- Outcome of calling a webapp plugin factory: a (subapp,
global_middlewares) pair, a raised ValueError, or any other raised
exception. -/
inductive WebAppFactoryOutcome where
  | ok (subapp : SubApp) (gm : Option (List Middleware))
  | valueError
  | otherExc (e : Fault)

/-- A webapp plugin module: its module-level init(config, cors_options)
factory. -/
structure WebAppModule where
  init : Config → CorsOptions → WebAppFactoryOutcome

/-- The three protocol-violation RuntimeError values WebAppPluginContext.init
can raise for a malformed factory result, plus the one it raises when the
factory itself raises ValueError. -/
def webappTupleFault : Fault :=
  Fault.runtimeError "Webapp plugin protocol error: plugin.init() must return 3-tuple of prefix, subapp, and global_middlewares"

/-- RuntimeError raised when the returned subapp is not an
aiohttp.web.Application instance. -/
def webappNotAppFault : Fault :=
  Fault.runtimeError "Webapp plugin protocol error: expected aiohttp.web.Application instance for 2nd return value of plugin.init()"

/-- RuntimeError raised when the returned subapp lacks a non-empty routing
key. -/
def webappBadRoutingFault : Fault :=
  Fault.runtimeError "Webapp plugin protocol error: expected aiohttp.web.Application instance to have the prefix key for URL routing"

/-- RuntimeError raised when global_middlewares is not None and the subapp
is not iterable. -/
def webappBadMiddlewareFault : Fault :=
  Fault.runtimeError "Webapp plugin protocol error: expected None or an iterable of aiohttp.web middleware function for 3rd return value of plugin.init()"

/-- The WebAppPluginContext class state: its instance attributes after
__init__ plus subsequent mutation. -/
structure WebAppPluginContext where
  _plugins : List WebAppModule
  _initialized : Bool
  cors_options : CorsOptions
  webapps : List (SubApp × Option (List Middleware))

/-- WebAppPluginContext.__init__(cors_options). -/
def WebAppPluginContext.new (cors : CorsOptions) : WebAppPluginContext :=
  { _plugins := [], _initialized := false, cors_options := cors, webapps := [] }

/-- WebAppPluginContext.add_plugin. -/
def WebAppPluginContext.add_plugin (ctx : WebAppPluginContext) (m : WebAppModule) :
    WebAppPluginContext :=
  { ctx with _plugins := ctx._plugins ++ [m] }

/-- The plugin loop inside WebAppPluginContext.init: activate each module
with (config, cors_options), validate the returned mount contract, append
accepted mounts to self.webapps; the first violation or propagated
exception stops the loop. Returns the final self.webapps together with the
raised fault, if any. -/
def webAppInitLoop (cors : CorsOptions) :
    List WebAppModule → List (SubApp × Option (List Middleware)) →
    List (SubApp × Option (List Middleware)) × Option Fault
  | [], acc => (acc, none)
  | m :: rest, acc =>
    match m.init [] cors with
    | WebAppFactoryOutcome.valueError => (acc, some webappTupleFault)
    | WebAppFactoryOutcome.otherExc e => (acc, some e)
    | WebAppFactoryOutcome.ok subapp gm =>
      if !subapp.is_web_application then
        (acc, some webappNotAppFault)
      else if badRoutingKey subapp then
        (acc, some webappBadRoutingFault)
      else if gm.isSome && !subapp.is_iterable then
        (acc, some webappBadMiddlewareFault)
      else
        webAppInitLoop cors rest (acc ++ [(subapp, gm)])

/-- WebAppPluginContext.init: raises RuntimeError if already initialized,
otherwise runs the activation loop and, on full success, sets
self._initialized. Mutations made before a raise are kept (Python object
state survives the exception). -/
def WebAppPluginContext.init (ctx : WebAppPluginContext) :
    WebAppPluginContext × Option Fault :=
  if ctx._initialized then
    (ctx, some (Fault.runtimeError "already initialized"))
  else
    match webAppInitLoop ctx.cors_options ctx._plugins ctx.webapps with
    | (w, some e) => ({ ctx with webapps := w }, some e)
    | (w, none) => ({ ctx with webapps := w, _initialized := true }, none)

/-- WebAppPluginContext.enumerate_apps: raises RuntimeError when not
initialized, otherwise yields the accepted mounts. -/
def WebAppPluginContext.enumerate_apps (ctx : WebAppPluginContext) :
    Except Fault (List (SubApp × Option (List Middleware))) :=
  if !ctx._initialized then
    Except.error (Fault.runtimeError "Webapp plugins are not initialized yet.")
  else
    Except.ok ctx.webapps

/-- Lookup in the handler index, modelling
self._handler_map.get(event_type, []): an absent key behaves as the empty
list. -/
def mapGet (m : List (HookEventTypes × List Handler)) (k : HookEventTypes) :
    List Handler :=
  match m.find? (fun p => p.1 == k) with
  | some p => p.2
  | none => []

/-- Append one handler to the list bound to an event type, modelling
self._handler_map[event_type].append(handler) on a defaultdict(list). -/
def mapAppend (m : List (HookEventTypes × List Handler)) (k : HookEventTypes)
    (h : Handler) : List (HookEventTypes × List Handler) :=
  match m with
  | [] => [(k, [h])]
  | p :: rest =>
    if p.1 == k then (p.1, p.2 ++ [h]) :: rest
    else p :: mapAppend rest k h

/-- One step of the HookPluginContext.init loop body, as an observable
event: the factory call plugin_mod.init(config), the hook.init() call, and
the enumeration of hook.get_handlers(), for the plugin at a given position
in registration order. -/
inductive InitEvent where
  | activate (i : Nat)
  | pluginInit (i : Nat)
  | collectBindings (i : Nat)
deriving DecidableEq

/-- The HookPluginContext class state: its instance attributes. -/
structure HookPluginContext where
  _plugins : List HookModule
  _hooks : List AbstractHook
  _handler_map : List (HookEventTypes × List Handler)
  _initialized : Bool

/-- HookPluginContext.__init__. -/
def HookPluginContext.new : HookPluginContext :=
  { _plugins := [], _hooks := [], _handler_map := [], _initialized := false }

/-- HookPluginContext.add_plugin. -/
def HookPluginContext.add_plugin (ctx : HookPluginContext) (m : HookModule) :
    HookPluginContext :=
  { ctx with _plugins := ctx._plugins ++ [m] }

/-- The plugin loop inside HookPluginContext.init, with an event trace: for
each registered module, call the factory, await hook.init(), enumerate the
bindings into the handler map, then append the hook to self._hooks. A raise
from the factory or from hook.init() stops the loop; mutations made so far
are kept. -/
def hookInitLoop :
    List HookModule → Nat → List AbstractHook →
    List (HookEventTypes × List Handler) → List InitEvent →
    List AbstractHook × List (HookEventTypes × List Handler) ×
      List InitEvent × Option Fault
  | [], _, hooks, hmap, tr => (hooks, hmap, tr, none)
  | m :: rest, i, hooks, hmap, tr =>
    match m.init [] with
    | Except.error e => (hooks, hmap, tr ++ [InitEvent.activate i], some e)
    | Except.ok hook =>
      match hook.init_outcome with
      | Except.error e =>
        (hooks, hmap, tr ++ [InitEvent.activate i, InitEvent.pluginInit i], some e)
      | Except.ok _ =>
        hookInitLoop rest (i + 1) (hooks ++ [hook])
          (hook.get_handlers.foldl (fun acc p => mapAppend acc p.1 p.2) hmap)
          (tr ++ [InitEvent.activate i, InitEvent.pluginInit i,
                  InitEvent.collectBindings i])

/-- HookPluginContext.init: raises RuntimeError if already initialized,
otherwise runs the activation loop over self._plugins and, on full success,
sets self._initialized. The second component is the trace of loop-body
events in execution order. -/
def HookPluginContext.init (ctx : HookPluginContext) :
    HookPluginContext × List InitEvent × Option Fault :=
  if ctx._initialized then
    (ctx, [], some (Fault.runtimeError "already initialized"))
  else
    match hookInitLoop ctx._plugins 0 ctx._hooks ctx._handler_map [] with
    | (hooks, hmap, tr, some e) =>
      ({ ctx with _hooks := hooks, _handler_map := hmap }, tr, some e)
    | (hooks, hmap, tr, none) =>
      ({ ctx with _hooks := hooks, _handler_map := hmap, _initialized := true },
       tr, none)

/-- Model of asyncio.gather(*tasks) WITHOUT return_exceptions: every task
runs, and if any task raised, the first exception is propagated to the
awaiter while the remaining outcomes are discarded. -/
def asyncioGather (tasks : List (Except Fault Unit)) : Except Fault Unit :=
  match tasks.findSome? (fun t =>
      match t with
      | Except.error e => some e
      | Except.ok _ => none) with
  | some e => Except.error e
  | none => Except.ok ()

/-- HookPluginContext.shutdown: a no-op when not initialized; otherwise
creates one shutdown coroutine per hook in self._hooks and gathers them.
The first component lists the indices of the hooks whose shutdown was
invoked; the second is what the await returns to the caller. -/
def HookPluginContext.shutdown (ctx : HookPluginContext) :
    List Nat × Except Fault Unit :=
  if !ctx._initialized then
    ([], Except.ok ())
  else
    (List.range ctx._hooks.length,
     asyncioGather (ctx._hooks.map (fun h => h.shutdown_outcome)))

/-- The predicate inside the reduction in HookPluginContext.dispatch_event:
isinstance(r, Exception) or r == HookResult.REJECTED. -/
def badOutcome (r : Except Fault HookResult) : Bool :=
  match r with
  | Except.error _ => true
  | Except.ok hr => hr == HookResult.REJECTED

/-- The reduction of gathered handler outcomes in
HookPluginContext.dispatch_event: REJECTED when any outcome is a captured
exception or REJECTED, otherwise BYPASS. -/
def reduceResults (results : List (Except Fault HookResult)) : HookResult :=
  if results.any badOutcome then HookResult.REJECTED else HookResult.BYPASS

/-- HookPluginContext.dispatch_event: look up the handlers bound to the
event type (absent keys give the empty list), gather all handler
invocations with return_exceptions=True (each outcome, exception included,
becomes a list element), and reduce. The method itself never raises, hence
the Except.ok result. -/
def HookPluginContext.dispatch_event (ctx : HookPluginContext)
    (event_type : HookEventTypes) (event_arg : EventArg) :
    Except Fault HookResult :=
  let handlers := mapGet ctx._handler_map event_type
  let results := handlers.map (fun h => h event_arg)
  Except.ok (reduceResults results)

/-! Sample handlers, hooks and modules used as concrete inputs in witness
theorems and counterexamples. -/

/-- A handler that always bypasses. -/
def hBypass : Handler := fun _ => Except.ok HookResult.BYPASS

/-- A handler that always rejects. -/
def hReject : Handler := fun _ => Except.ok HookResult.REJECTED

/-- A handler that always reports MODIFIED. -/
def hModified : Handler := fun _ => Except.ok HookResult.MODIFIED

/-- A handler that always raises. -/
def hRaise : Handler := fun _ => Except.error (Fault.exc 7)

/-- An activated hook binding one handler to USER_SIGNUP, with clean
lifecycle outcomes. -/
def signupHook (h : Handler) : AbstractHook :=
  { get_handlers := [(HookEventTypes.USER_SIGNUP, h)],
    init_outcome := Except.ok (),
    shutdown_outcome := Except.ok () }

/-- A hook module whose factory returns the given hook. -/
def modOf (h : AbstractHook) : HookModule :=
  { init := fun _ => Except.ok h }

/-- A hook module whose factory raises. -/
def modRaising : HookModule :=
  { init := fun _ => Except.error (Fault.exc 99) }

/-- A fresh hook context with the given modules registered, in order. -/
def mkHookCtx (mods : List HookModule) : HookPluginContext :=
  mods.foldl HookPluginContext.add_plugin HookPluginContext.new

/-- A fresh webapp context with the given modules registered, in order. -/
def mkWebCtx (cors : CorsOptions) (mods : List WebAppModule) :
    WebAppPluginContext :=
  mods.foldl WebAppPluginContext.add_plugin (WebAppPluginContext.new cors)

/-- The spec scenario context: three hook plugins bound to USER_SIGNUP
where A bypasses, B rejects and C raises, after a successful init. -/
def ctxABC : HookPluginContext :=
  (HookPluginContext.init (mkHookCtx
    [modOf (signupHook hBypass), modOf (signupHook hReject),
     modOf (signupHook hRaise)])).1

/-- A context of two MODIFIED-reporting plugins after a successful init. -/
def ctxMM : HookPluginContext :=
  (HookPluginContext.init (mkHookCtx
    [modOf (signupHook hModified), modOf (signupHook hModified)])).1

/-! Helper lemmas about the dispatch reduction. -/

/-- Reduction returns REJECTED exactly when some gathered outcome is a
captured exception or REJECTED. -/
theorem reduceResults_eq_rejected_iff (rs : List (Except Fault HookResult)) :
    reduceResults rs = HookResult.REJECTED ↔ rs.any badOutcome = true := by
  unfold reduceResults
  by_cases h : rs.any badOutcome = true
  · simp [h]
  · simp [h]

/-- Reduction only ever returns REJECTED or BYPASS. -/
theorem reduceResults_eq_or (rs : List (Except Fault HookResult)) :
    reduceResults rs = HookResult.REJECTED ∨
      reduceResults rs = HookResult.BYPASS := by
  unfold reduceResults
  by_cases h : rs.any badOutcome = true
  · exact Or.inl (by simp [h])
  · exact Or.inr (by simp [h])

/-- Permuting a list does not change the result of List.any. -/
theorem any_eq_of_perm {α : Type} (p : α → Bool) {l₁ l₂ : List α}
    (h : l₁.Perm l₂) : l₁.any p = l₂.any p := by
  induction h with
  | nil => rfl
  | cons x _ ih => simp [List.any_cons, ih]
  | swap x y l => simp [List.any_cons, Bool.or_left_comm]
  | trans _ _ ih₁ ih₂ => exact ih₁.trans ih₂

/-- Unfolding equation for dispatch_event. -/
theorem dispatch_event_def (ctx : HookPluginContext)
    (et : HookEventTypes) (arg : EventArg) :
    ctx.dispatch_event et arg =
      Except.ok (reduceResults
        ((mapGet ctx._handler_map et).map (fun h => h arg))) := rfl

/-- C1: the aggregate result of dispatch_event is REJECTED exactly when at
least one bound handler's outcome is a captured exception or REJECTED;
otherwise it is BYPASS; and the reduction of gathered outcomes is invariant
under permutation of the outcome list (collection order is irrelevant). -/
theorem dispatch_event_aggregate (ctx : HookPluginContext)
    (et : HookEventTypes) (arg : EventArg) :
    (ctx.dispatch_event et arg = Except.ok HookResult.REJECTED ↔
      ∃ h ∈ mapGet ctx._handler_map et, badOutcome (h arg) = true) ∧
    (ctx.dispatch_event et arg = Except.ok HookResult.REJECTED ∨
      ctx.dispatch_event et arg = Except.ok HookResult.BYPASS) ∧
    (∀ rs₁ rs₂ : List (Except Fault HookResult), rs₁.Perm rs₂ →
      reduceResults rs₁ = reduceResults rs₂) := by
  refine ⟨?_, ?_, ?_⟩
  · rw [dispatch_event_def]
    simp only [Except.ok.injEq]
    rw [reduceResults_eq_rejected_iff]
    simp [List.any_eq_true, List.mem_map]
  · rcases reduceResults_eq_or
        ((mapGet ctx._handler_map et).map (fun h => h arg)) with h | h
    · exact Or.inl (by rw [dispatch_event_def, h])
    · exact Or.inr (by rw [dispatch_event_def, h])
  · intro rs₁ rs₂ hperm
    unfold reduceResults
    rw [any_eq_of_perm badOutcome hperm]

/-- Witness for C1 at the spec scenario context and a concrete
permutation of outcome lists. -/
theorem dispatch_event_aggregate_witness :
    (ctxABC.dispatch_event HookEventTypes.USER_SIGNUP 0 =
        Except.ok HookResult.REJECTED ↔
      ∃ h ∈ mapGet ctxABC._handler_map HookEventTypes.USER_SIGNUP,
        badOutcome (h 0) = true) ∧
    reduceResults [Except.ok HookResult.BYPASS, Except.error (Fault.exc 7)] =
      reduceResults [Except.error (Fault.exc 7), Except.ok HookResult.BYPASS] := by
  refine ⟨(dispatch_event_aggregate ctxABC HookEventTypes.USER_SIGNUP 0).1, ?_⟩
  exact (dispatch_event_aggregate ctxABC HookEventTypes.USER_SIGNUP 0).2.2 _ _
    (List.Perm.swap _ _ _)

/-- A gathered outcome that is a captured exception. -/
def isFaultOutcome (r : Except Fault HookResult) : Bool :=
  match r with
  | Except.error _ => true
  | Except.ok _ => false

/-- A captured exception is a bad outcome for the reduction. -/
theorem badOutcome_of_isFaultOutcome {r : Except Fault HookResult}
    (h : isFaultOutcome r = true) : badOutcome r = true := by
  cases r with
  | error e => rfl
  | ok v => simp [isFaultOutcome] at h

/-- C2: when at least one bound handler raises during dispatch, the
aggregate is REJECTED and dispatch_event returns it normally (Except.ok):
the handler's exception is captured by the gather, never propagated. -/
theorem dispatch_event_fault_rejected (ctx : HookPluginContext)
    (et : HookEventTypes) (arg : EventArg)
    (h : (mapGet ctx._handler_map et).any
      (fun hd => isFaultOutcome (hd arg)) = true) :
    ctx.dispatch_event et arg = Except.ok HookResult.REJECTED := by
  rw [dispatch_event_def]
  simp only [Except.ok.injEq]
  rw [reduceResults_eq_rejected_iff]
  rw [List.any_eq_true] at h ⊢
  rcases h with ⟨hd, hmem, hfault⟩
  exact ⟨hd arg, List.mem_map.mpr ⟨hd, hmem, rfl⟩,
    badOutcome_of_isFaultOutcome hfault⟩

/-- Witness for C2: in the spec scenario context one handler raises, and
dispatch returns REJECTED as a value. -/
theorem dispatch_event_fault_rejected_witness :
    ctxABC.dispatch_event HookEventTypes.USER_SIGNUP 0 =
      Except.ok HookResult.REJECTED :=
  dispatch_event_fault_rejected ctxABC HookEventTypes.USER_SIGNUP 0 rfl

/-- C6: on an initialized context, dispatching an event type with zero
bound handlers (in particular one absent from the handler index) returns
BYPASS as a value, never an error. -/
theorem dispatch_event_empty_bypass (ctx : HookPluginContext)
    (et : HookEventTypes) (arg : EventArg)
    (hinit : ctx._initialized = true)
    (hempty : mapGet ctx._handler_map et = []) :
    ctx.dispatch_event et arg = Except.ok HookResult.BYPASS := by
  rw [dispatch_event_def, hempty]
  rfl

/-- Witness for C6: the spec scenario context binds only USER_SIGNUP, so
KERNEL_START is absent from the handler index and dispatch yields BYPASS. -/
theorem dispatch_event_empty_bypass_witness :
    ctxABC.dispatch_event HookEventTypes.KERNEL_START 0 =
      Except.ok HookResult.BYPASS :=
  dispatch_event_empty_bypass ctxABC HookEventTypes.KERNEL_START 0 rfl rfl

/-- C9: when no bound handler's outcome is a captured exception or
REJECTED (so every outcome is BYPASS or MODIFIED), dispatch returns
BYPASS: MODIFIED outcomes are aggregated exactly like BYPASS. -/
theorem dispatch_event_modified_as_bypass (ctx : HookPluginContext)
    (et : HookEventTypes) (arg : EventArg)
    (h : (mapGet ctx._handler_map et).all
      (fun hd => !badOutcome (hd arg)) = true) :
    ctx.dispatch_event et arg = Except.ok HookResult.BYPASS := by
  rw [dispatch_event_def]
  simp only [Except.ok.injEq]
  unfold reduceResults
  have hfalse : ((mapGet ctx._handler_map et).map (fun hd => hd arg)).any
      badOutcome = false := by
    rw [List.any_eq_false]
    intro r hr
    rcases List.mem_map.mp hr with ⟨hd, hmem, rfl⟩
    have := List.all_eq_true.mp h hd hmem
    simpa using this
  simp [hfalse]

/-- Witness for C9: a context whose two handlers both report MODIFIED
dispatches to BYPASS. -/
theorem dispatch_event_modified_as_bypass_witness :
    ctxMM.dispatch_event HookEventTypes.USER_SIGNUP 0 =
      Except.ok HookResult.BYPASS :=
  dispatch_event_modified_as_bypass ctxMM HookEventTypes.USER_SIGNUP 0 rfl

/-- Registering plugins on a hook context only appends to the plugin list;
all other attributes are untouched. -/
theorem hook_foldl_add_plugin (mods : List HookModule)
    (ctx : HookPluginContext) :
    mods.foldl HookPluginContext.add_plugin ctx =
      { ctx with _plugins := ctx._plugins ++ mods } := by
  induction mods generalizing ctx with
  | nil => simp
  | cons m rest ih =>
    rw [List.foldl_cons, ih]
    simp [HookPluginContext.add_plugin]

/-- Registering plugins on a webapp context only appends to the plugin
list; all other attributes are untouched. -/
theorem web_foldl_add_plugin (mods : List WebAppModule)
    (ctx : WebAppPluginContext) :
    mods.foldl WebAppPluginContext.add_plugin ctx =
      { ctx with _plugins := ctx._plugins ++ mods } := by
  induction mods generalizing ctx with
  | nil => simp
  | cons m rest ih =>
    rw [List.foldl_cons, ih]
    simp [WebAppPluginContext.add_plugin]

/-- A hook context with one registered (never-initialized) plugin whose
handler would reject: the state just before init() is first called. -/
def hookCtxPreInit : HookPluginContext :=
  mkHookCtx [modOf (signupHook hReject)]

/-- Counterexample to C3: on a hook context whose init() has not run,
dispatch_event does not fail with a not-initialized error; it performs no
initialization check at all and simply returns BYPASS, because the handler
index is still empty. -/
theorem dispatch_event_before_init_no_error :
    hookCtxPreInit._initialized = false ∧
    hookCtxPreInit.dispatch_event HookEventTypes.USER_SIGNUP 0 =
      Except.ok HookResult.BYPASS :=
  ⟨rfl, rfl⟩

/-- C3 (amended): enumerate_apps before init() fails with the
not-initialized RuntimeError, but dispatch_event has no initialization
guard: on any freshly built hook context, with any plugins registered, it
returns BYPASS instead of raising. -/
theorem before_init_guard_behavior :
    (∀ w : WebAppPluginContext, w._initialized = false →
      w.enumerate_apps = Except.error
        (Fault.runtimeError "Webapp plugins are not initialized yet.")) ∧
    (∀ (mods : List HookModule) (et : HookEventTypes) (arg : EventArg),
      (mkHookCtx mods).dispatch_event et arg =
        Except.ok HookResult.BYPASS) := by
  constructor
  · intro w hw
    unfold WebAppPluginContext.enumerate_apps
    rw [hw]
    rfl
  · intro mods et arg
    have hmap : (mkHookCtx mods)._handler_map = [] := by
      unfold mkHookCtx
      rw [hook_foldl_add_plugin]
      rfl
    rw [dispatch_event_def]
    rw [show mapGet (mkHookCtx mods)._handler_map et = [] from by
      rw [hmap]; rfl]
    rfl

/-- Witness for the amended C3 at concrete contexts. -/
theorem before_init_guard_behavior_witness :
    (WebAppPluginContext.new []).enumerate_apps = Except.error
      (Fault.runtimeError "Webapp plugins are not initialized yet.") ∧
    (mkHookCtx [modOf (signupHook hBypass)]).dispatch_event
      HookEventTypes.USER_LOGIN 0 = Except.ok HookResult.BYPASS :=
  ⟨before_init_guard_behavior.1 (WebAppPluginContext.new []) rfl,
   before_init_guard_behavior.2 [modOf (signupHook hBypass)]
     HookEventTypes.USER_LOGIN 0⟩

/-- A subapp satisfying all mount-contract checks. -/
def goodSubApp : SubApp :=
  { is_web_application := true, is_iterable := true,
    items := [("prefix", "/probe")] }

/-- A webapp module whose factory returns a valid mount. -/
def goodWebMod : WebAppModule :=
  { init := fun _ _ => WebAppFactoryOutcome.ok goodSubApp none }

/-- A webapp context after a successful init of one valid plugin. -/
def webCtxReady : WebAppPluginContext :=
  (WebAppPluginContext.init (mkWebCtx [] [goodWebMod])).1

/-- C7: on any context (hook or webapp) whose init already completed,
calling init again raises the already-initialized RuntimeError and returns
the context unchanged: plugin registry, handler index and accepted mounts
are exactly as before. -/
theorem double_init_fails (hc : HookPluginContext) (wc : WebAppPluginContext)
    (hh : hc._initialized = true) (hw : wc._initialized = true) :
    HookPluginContext.init hc =
      (hc, [], some (Fault.runtimeError "already initialized")) ∧
    WebAppPluginContext.init wc =
      (wc, some (Fault.runtimeError "already initialized")) := by
  constructor
  · unfold HookPluginContext.init
    rw [hh]
    rfl
  · unfold WebAppPluginContext.init
    rw [hw]
    rfl

/-- Witness for C7 on concrete initialized contexts of both kinds. -/
theorem double_init_fails_witness :
    HookPluginContext.init ctxABC =
      (ctxABC, [], some (Fault.runtimeError "already initialized")) ∧
    WebAppPluginContext.init webCtxReady =
      (webCtxReady, some (Fault.runtimeError "already initialized")) :=
  double_init_fails ctxABC webCtxReady rfl rfl

/-- C10: shutdown on a hook context that never completed init returns
normally, raises nothing, and invokes no hook's shutdown (the invoked-index
trace is empty), regardless of how many hooks were already activated by a
partially failed init. -/
theorem shutdown_before_init_noop (ctx : HookPluginContext)
    (h : ctx._initialized = false) :
    ctx.shutdown = ([], Except.ok ()) := by
  unfold HookPluginContext.shutdown
  rw [h]
  rfl

/-- Witness for C10: a two-plugin context whose init fails on the second
factory; the first hook was activated and init-ed (it sits in _hooks), yet
shutdown is a silent no-op that invokes no hook. -/
theorem shutdown_before_init_noop_witness :
    (HookPluginContext.init
        (mkHookCtx [modOf (signupHook hBypass), modRaising])).1._initialized
      = false ∧
    (HookPluginContext.init
        (mkHookCtx [modOf (signupHook hBypass), modRaising])).1._hooks.length
      = 1 ∧
    HookPluginContext.shutdown
        (HookPluginContext.init
          (mkHookCtx [modOf (signupHook hBypass), modRaising])).1
      = ([], Except.ok ()) :=
  ⟨rfl, rfl, shutdown_before_init_noop _ rfl⟩

/-- On Unit-valued tasks, gather succeeds exactly when every task did. -/
theorem asyncioGather_eq_ok_iff (tasks : List (Except Fault Unit)) :
    asyncioGather tasks = Except.ok () ↔
      ∀ t ∈ tasks, t = Except.ok () := by
  unfold asyncioGather
  cases hf : tasks.findSome? (fun t =>
      match t with
      | Except.error e => some e
      | Except.ok _ => none) with
  | none =>
    rw [List.findSome?_eq_none_iff] at hf
    simp only [true_iff]
    intro t ht
    have := hf t ht
    cases t with
    | error e => simp at this
    | ok v => rfl
  | some e =>
    rcases List.findSome?_eq_some_iff.mp hf with ⟨l₁, a, l₂, hsplit, ha, _⟩
    simp only [reduceCtorEq, false_iff, not_forall]
    refine ⟨a, by rw [hsplit]; exact List.mem_append_right _ (List.mem_cons_self _ _), ?_⟩
    cases a with
    | error e2 => simp
    | ok v => simp at ha

/-- When gather propagates an exception, that exception is the outcome of
one of the tasks. -/
theorem asyncioGather_error_mem (tasks : List (Except Fault Unit)) (e : Fault)
    (h : asyncioGather tasks = Except.error e) : Except.error e ∈ tasks := by
  unfold asyncioGather at h
  cases hf : tasks.findSome? (fun t =>
      match t with
      | Except.error e => some e
      | Except.ok _ => none) with
  | none => rw [hf] at h; simp at h
  | some e2 =>
    rw [hf] at h
    simp only [Except.error.injEq] at h
    subst h
    rcases List.findSome?_eq_some_iff.mp hf with ⟨l₁, a, l₂, hsplit, ha, _⟩
    have : a = Except.error e2 := by
      cases a with
      | error e3 => simp at ha; rw [ha]
      | ok v => simp at ha
    rw [hsplit, ← this]
    exact List.mem_append_right _ (List.mem_cons_self _ _)

/-- C5 (amended): on an initialized context, shutdown creates one shutdown
invocation per recorded hook (all of them, one each, regardless of faults);
it returns normally exactly when no hook faulted; and when it raises, the
propagated exception is a single hook's own fault (the first one), not an
aggregate of all faults. -/
theorem shutdown_all_invoked_first_fault (ctx : HookPluginContext)
    (h : ctx._initialized = true) :
    ctx.shutdown.1 = List.range ctx._hooks.length ∧
    (ctx.shutdown.2 = Except.ok () ↔
      ∀ hk ∈ ctx._hooks, hk.shutdown_outcome = Except.ok ()) ∧
    (∀ e, ctx.shutdown.2 = Except.error e →
      ∃ hk ∈ ctx._hooks, hk.shutdown_outcome = Except.error e) := by
  have hs : ctx.shutdown =
      (List.range ctx._hooks.length,
       asyncioGather (ctx._hooks.map (fun hk => hk.shutdown_outcome))) := by
    unfold HookPluginContext.shutdown
    rw [h]
    rfl
  rw [hs]
  refine ⟨rfl, ?_, ?_⟩
  · rw [asyncioGather_eq_ok_iff]
    constructor
    · intro hall hk hmem
      exact hall _ (List.mem_map.mpr ⟨hk, hmem, rfl⟩)
    · intro hall t ht
      rcases List.mem_map.mp ht with ⟨hk, hmem, rfl⟩
      exact hall hk hmem
  · intro e he
    have := asyncioGather_error_mem _ e he
    rcases List.mem_map.mp this with ⟨hk, hmem, heq⟩
    exact ⟨hk, hmem, heq⟩

/-- A hook whose shutdown raises exception 0. -/
def hookFault0 : AbstractHook :=
  { get_handlers := [], init_outcome := Except.ok (),
    shutdown_outcome := Except.error (Fault.exc 0) }

/-- A hook whose shutdown raises exception 1. -/
def hookFault1 : AbstractHook :=
  { get_handlers := [], init_outcome := Except.ok (),
    shutdown_outcome := Except.error (Fault.exc 1) }

/-- A hook with a clean shutdown. -/
def hookClean : AbstractHook :=
  { get_handlers := [], init_outcome := Except.ok (),
    shutdown_outcome := Except.ok () }

/-- Two initialized plugins whose shutdowns both fault. -/
def ctxBothFault : HookPluginContext :=
  (HookPluginContext.init (mkHookCtx [modOf hookFault0, modOf hookFault1])).1

/-- Two initialized plugins where only the first shutdown faults. -/
def ctxFirstFault : HookPluginContext :=
  (HookPluginContext.init (mkHookCtx [modOf hookFault0, modOf hookClean])).1

/-- Counterexample to C5: with two plugins whose shutdowns fault with
distinct exceptions, the caller receives exactly the first plugin's
exception; the outcome is indistinguishable from the run where the second
plugin shut down cleanly, so the second fault is discarded rather than
collected into an aggregate report. -/
theorem shutdown_no_aggregate_counterexample :
    ctxBothFault.shutdown.2 = Except.error (Fault.exc 0) ∧
    ctxBothFault.shutdown.2 = ctxFirstFault.shutdown.2 ∧
    Fault.exc 0 ≠ Fault.exc 1 :=
  ⟨rfl, rfl, by decide⟩

/-- Witness for the amended C5 at the two-faulting-plugin context. -/
theorem shutdown_all_invoked_first_fault_witness :
    ctxBothFault.shutdown.1 = List.range ctxBothFault._hooks.length ∧
    (∃ hk ∈ ctxBothFault._hooks,
      hk.shutdown_outcome = Except.error (Fault.exc 0)) :=
  ⟨(shutdown_all_invoked_first_fault ctxBothFault rfl).1,
   (shutdown_all_invoked_first_fault ctxBothFault rfl).2.2 (Fault.exc 0) rfl⟩

/-- The loop-body event trace of a fully successful init over n plugins
starting at position i: for each plugin, factory activation, then the
plugin's own init, then binding collection. -/
def fullInitTrace : Nat → Nat → List InitEvent
  | _, 0 => []
  | i, Nat.succ n =>
    [InitEvent.activate i, InitEvent.pluginInit i, InitEvent.collectBindings i]
      ++ fullInitTrace (i + 1) n

/-- Unfolding equation for HookPluginContext.init on a not-yet-initialized
context. -/
theorem hook_init_def (ctx : HookPluginContext) (h : ctx._initialized = false) :
    HookPluginContext.init ctx =
      match hookInitLoop ctx._plugins 0 ctx._hooks ctx._handler_map [] with
      | (hooks, hmap, tr, some e) =>
        ({ ctx with _hooks := hooks, _handler_map := hmap }, tr, some e)
      | (hooks, hmap, tr, none) =>
        ({ ctx with _hooks := hooks, _handler_map := hmap, _initialized := true }, tr, none) := by
  unfold HookPluginContext.init
  rw [h]
  rfl

/-- On modules whose factory and plugin init all succeed, the init loop
never faults and its trace is exactly activate / pluginInit /
collectBindings for each plugin in registration order. -/
theorem hookInitLoop_clean (mods : List HookModule)
    (hmods : ∀ m ∈ mods, ∃ hk, m.init [] = Except.ok hk ∧
      hk.init_outcome = Except.ok ()) :
    ∀ (i : Nat) (hooks : List AbstractHook)
      (hmap : List (HookEventTypes × List Handler)) (tr : List InitEvent),
      ∃ hooks2 hmap2,
        hookInitLoop mods i hooks hmap tr =
          (hooks2, hmap2, tr ++ fullInitTrace i mods.length, none) := by
  induction mods with
  | nil =>
    intro i hooks hmap tr
    exact ⟨hooks, hmap, by simp [hookInitLoop, fullInitTrace]⟩
  | cons m rest ih =>
    intro i hooks hmap tr
    rcases hmods m (List.mem_cons_self _ _) with ⟨hk, hfac, hinit2⟩
    have step : hookInitLoop (m :: rest) i hooks hmap tr =
        hookInitLoop rest (i + 1) (hooks ++ [hk])
          (hk.get_handlers.foldl (fun acc p => mapAppend acc p.1 p.2) hmap)
          (tr ++ [InitEvent.activate i, InitEvent.pluginInit i,
                  InitEvent.collectBindings i]) := by
      simp only [hookInitLoop, hfac, hinit2]
    rcases ih (fun m2 hm2 => hmods m2 (List.mem_cons_of_mem _ hm2)) (i + 1)
        (hooks ++ [hk])
        (hk.get_handlers.foldl (fun acc p => mapAppend acc p.1 p.2) hmap)
        (tr ++ [InitEvent.activate i, InitEvent.pluginInit i,
                InitEvent.collectBindings i]) with ⟨hooks2, hmap2, hres⟩
    refine ⟨hooks2, hmap2, ?_⟩
    rw [step, hres]
    simp [fullInitTrace, List.append_assoc]

/-- Counterexample to C4: for a single clean plugin, the init loop trace is
activation, then the plugin's own init, then binding collection — the
bindings are NOT enumerated before the plugin's init is invoked (the
collectBindings event sits strictly after the pluginInit event). -/
theorem init_bindings_before_init_counterexample :
    (HookPluginContext.init (mkHookCtx [modOf (signupHook hBypass)])).2.1 =
      [InitEvent.activate 0, InitEvent.pluginInit 0,
       InitEvent.collectBindings 0] ∧
    ¬ ((HookPluginContext.init (mkHookCtx [modOf (signupHook hBypass)])).2.1.findIdx
          (fun e => e == InitEvent.collectBindings 0) <
        (HookPluginContext.init (mkHookCtx [modOf (signupHook hBypass)])).2.1.findIdx
          (fun e => e == InitEvent.pluginInit 0)) :=
  ⟨rfl, by decide⟩

/-- C4 (amended): during Hook Context init(), for every registered module
in registration order, the plugin is activated, then the plugin's own init
is called, and only then are its bindings collected and appended to the
per-event-type handler lists; when every module is clean the whole init
succeeds with exactly that trace. -/
theorem init_order_activate_init_bindings (mods : List HookModule)
    (hmods : ∀ m ∈ mods, ∃ hk, m.init [] = Except.ok hk ∧
      hk.init_outcome = Except.ok ()) :
    (HookPluginContext.init (mkHookCtx mods)).2.1 =
      fullInitTrace 0 mods.length ∧
    (HookPluginContext.init (mkHookCtx mods)).2.2 = none := by
  have hctx : mkHookCtx mods =
      { _plugins := mods, _hooks := [], _handler_map := [],
        _initialized := false } := by
    unfold mkHookCtx
    rw [hook_foldl_add_plugin]
    rfl
  have hinit0 : (mkHookCtx mods)._initialized = false := by rw [hctx]
  rcases hookInitLoop_clean mods hmods 0 [] [] [] with ⟨hooks2, hmap2, hres⟩
  rw [hook_init_def _ hinit0]
  have h1 : (mkHookCtx mods)._plugins = mods := by rw [hctx]
  have h2 : (mkHookCtx mods)._hooks = [] := by rw [hctx]
  have h3 : (mkHookCtx mods)._handler_map = [] := by rw [hctx]
  rw [h1, h2, h3, hres]
  simp

/-- Witness for the amended C4 on two clean plugins. -/
theorem init_order_activate_init_bindings_witness :
    (HookPluginContext.init (mkHookCtx
        [modOf (signupHook hBypass), modOf (signupHook hModified)])).2.1 =
      fullInitTrace 0 2 ∧
    (HookPluginContext.init (mkHookCtx
        [modOf (signupHook hBypass), modOf (signupHook hModified)])).2.2 =
      none :=
  init_order_activate_init_bindings
    [modOf (signupHook hBypass), modOf (signupHook hModified)]
    (by
      intro m hm
      simp only [List.mem_cons, List.not_mem_nil, or_false] at hm
      rcases hm with rfl | rfl
      · exact ⟨signupHook hBypass, rfl, rfl⟩
      · exact ⟨signupHook hModified, rfl, rfl⟩)

/-- The acceptance decision WebAppPluginContext.init makes for one module:
some mount when the factory returns a pair passing all three shape checks,
none otherwise. -/
def webappAccepted (cors : CorsOptions) (m : WebAppModule) :
    Option (SubApp × Option (List Middleware)) :=
  match m.init [] cors with
  | WebAppFactoryOutcome.ok s g =>
    if s.is_web_application && !badRoutingKey s && !(g.isSome && !s.is_iterable)
    then some (s, g) else none
  | _ => none

/-- The mounts the init loop accepts from a list of modules. -/
def acceptedMounts (cors : CorsOptions) (ps : List WebAppModule) :
    List (SubApp × Option (List Middleware)) :=
  ps.filterMap (webappAccepted cors)

/-- Decomposition of the acceptance condition into its three checks. -/
theorem accept_cond_parts {s : SubApp} {g : Option (List Middleware)}
    (hcond : (s.is_web_application && !badRoutingKey s
      && !(g.isSome && !s.is_iterable)) = true) :
    s.is_web_application = true ∧ badRoutingKey s = false ∧
      (g.isSome && !s.is_iterable) = false := by
  rw [Bool.and_eq_true, Bool.and_eq_true] at hcond
  obtain ⟨⟨h1, h2⟩, h3⟩ := hcond
  refine ⟨h1, ?_, ?_⟩
  · cases hb : badRoutingKey s
    · rfl
    · rw [hb] at h2; simp at h2
  · cases hb : (g.isSome && !s.is_iterable)
    · rfl
    · rw [hb] at h3; simp at h3

/-- An accepted module makes the init loop append its mount and continue. -/
theorem webAppInitLoop_skip (cors : CorsOptions) (m : WebAppModule)
    (mount : SubApp × Option (List Middleware))
    (h : webappAccepted cors m = some mount) (ms : List WebAppModule)
    (acc : List (SubApp × Option (List Middleware))) :
    webAppInitLoop cors (m :: ms) acc = webAppInitLoop cors ms (acc ++ [mount]) := by
  unfold webappAccepted at h
  split at h
  · rename_i s g heq
    split at h
    · rename_i hcond
      obtain ⟨h1, h2, h3⟩ := accept_cond_parts hcond
      injection h with h
      subst h
      simp [webAppInitLoop, heq, h1, h2, h3]
    · simp at h
  · simp at h

/-- An accepted mount's subapp passed the shape checks. -/
theorem webappAccepted_shape (cors : CorsOptions) (m : WebAppModule)
    (x : SubApp × Option (List Middleware))
    (h : webappAccepted cors m = some x) :
    x.1.is_web_application = true ∧ badRoutingKey x.1 = false := by
  unfold webappAccepted at h
  split at h
  · rename_i s g heq
    split at h
    · rename_i hcond
      obtain ⟨h1, h2, h3⟩ := accept_cond_parts hcond
      injection h with h
      subst h
      exact ⟨h1, h2⟩
    · simp at h
  · simp at h

/-- The init loop, hitting a module whose factory returns a subapp failing
one of the first two shape checks, stops with the matching
protocol-violation RuntimeError and appends nothing. -/
theorem webAppInitLoop_bad_head (cors : CorsOptions) (m : WebAppModule)
    (s : SubApp) (g : Option (List Middleware)) (ms : List WebAppModule)
    (acc : List (SubApp × Option (List Middleware)))
    (hm : m.init [] cors = WebAppFactoryOutcome.ok s g)
    (hbad : s.is_web_application = false ∨ badRoutingKey s = true) :
    ∃ e, webAppInitLoop cors (m :: ms) acc = (acc, some e) ∧
      (e = webappNotAppFault ∨ e = webappBadRoutingFault) := by
  rcases hbad with hbad | hbad
  · exact ⟨webappNotAppFault, by simp [webAppInitLoop, hm, hbad], Or.inl rfl⟩
  · cases h1 : s.is_web_application
    · exact ⟨webappNotAppFault, by simp [webAppInitLoop, hm, h1], Or.inl rfl⟩
    · exact ⟨webappBadRoutingFault, by simp [webAppInitLoop, hm, h1, hbad],
        Or.inr rfl⟩

/-- The init loop walks over a block of accepted modules by appending all
their mounts in order. -/
theorem webAppInitLoop_skip_all (cors : CorsOptions)
    (pre ms : List WebAppModule)
    (hpre : ∀ p ∈ pre, (webappAccepted cors p).isSome = true) :
    ∀ acc, webAppInitLoop cors (pre ++ ms) acc =
      webAppInitLoop cors ms (acc ++ acceptedMounts cors pre) := by
  induction pre with
  | nil =>
    intro acc
    simp [acceptedMounts]
  | cons p pre ih =>
    intro acc
    obtain ⟨mount, hmount⟩ :=
      Option.isSome_iff_exists.mp (hpre p (List.mem_cons_self _ _))
    rw [List.cons_append, webAppInitLoop_skip cors p mount hmount (pre ++ ms) acc]
    rw [ih (fun q hq => hpre q (List.mem_cons_of_mem _ hq)) (acc ++ [mount])]
    simp [acceptedMounts, List.filterMap_cons, hmount, List.append_assoc]

/-- Unfolding equation for WebAppPluginContext.init on a not-yet-initialized
context. -/
theorem webapp_init_def (ctx : WebAppPluginContext)
    (h : ctx._initialized = false) :
    WebAppPluginContext.init ctx =
      match webAppInitLoop ctx.cors_options ctx._plugins ctx.webapps with
      | (w, some e) => ({ ctx with webapps := w }, some e)
      | (w, none) => ({ ctx with webapps := w, _initialized := true }, none) := by
  unfold WebAppPluginContext.init
  rw [h]
  rfl

/-- C8: if some registered module's factory returns a mount whose subapp is
not an Application or lacks a non-empty routing key (all earlier modules
being well-behaved), then WebAppPluginContext.init raises the matching
protocol-violation RuntimeError, the context never becomes initialized, and
the offending mount is not in the accepted list. -/
theorem webapp_init_rejects_bad_mount (cors : CorsOptions)
    (pre : List WebAppModule) (m : WebAppModule) (rest : List WebAppModule)
    (subapp : SubApp) (gm : Option (List Middleware))
    (hpre : ∀ p ∈ pre, (webappAccepted cors p).isSome = true)
    (hm : m.init [] cors = WebAppFactoryOutcome.ok subapp gm)
    (hbad : subapp.is_web_application = false ∨ badRoutingKey subapp = true) :
    ∃ e, (WebAppPluginContext.init (mkWebCtx cors (pre ++ m :: rest))).2 = some e ∧
      (e = webappNotAppFault ∨ e = webappBadRoutingFault) ∧
      (WebAppPluginContext.init (mkWebCtx cors (pre ++ m :: rest))).1._initialized
        = false ∧
      ∀ g, (subapp, g) ∉
        (WebAppPluginContext.init (mkWebCtx cors (pre ++ m :: rest))).1.webapps := by
  have hctx : mkWebCtx cors (pre ++ m :: rest) =
      { _plugins := pre ++ m :: rest, _initialized := false,
        cors_options := cors, webapps := [] } := by
    unfold mkWebCtx
    rw [web_foldl_add_plugin]
    rfl
  obtain ⟨e, hloop, hor⟩ :=
    webAppInitLoop_bad_head cors m subapp gm rest (acceptedMounts cors pre)
      hm hbad
  have hfull : webAppInitLoop cors (pre ++ m :: rest) [] =
      (acceptedMounts cors pre, some e) := by
    rw [webAppInitLoop_skip_all cors pre (m :: rest) hpre []]
    simpa using hloop
  have hinit : WebAppPluginContext.init (mkWebCtx cors (pre ++ m :: rest)) =
      ({ _plugins := pre ++ m :: rest, _initialized := false,
         cors_options := cors, webapps := acceptedMounts cors pre }, some e) := by
    rw [webapp_init_def _ (by rw [hctx])]
    rw [hctx]
    dsimp only
    rw [hfull]
  refine ⟨e, ?_, hor, ?_, ?_⟩
  · rw [hinit]
  · rw [hinit]
  · intro g hg
    rw [hinit] at hg
    obtain ⟨p, hp, hpa⟩ := List.mem_filterMap.mp hg
    have hshape := webappAccepted_shape cors p _ hpa
    rcases hbad with hbad | hbad
    · rw [hbad] at hshape
      exact absurd hshape.1 (by simp)
    · rw [hbad] at hshape
      exact absurd hshape.2 (by simp)

/-- A subapp with an empty routing value: application-shaped but violating
the non-empty routing-key requirement. -/
def badSubApp : SubApp :=
  { is_web_application := true, is_iterable := true, items := [("prefix", "")] }

/-- A webapp module returning the bad mount. -/
def badWebMod : WebAppModule :=
  { init := fun _ _ => WebAppFactoryOutcome.ok badSubApp none }

/-- Witness for C8: one good plugin followed by one whose mount has an
empty routing value; init fails with the routing protocol violation and the
bad mount is never enumerable. -/
theorem webapp_init_rejects_bad_mount_witness :
    ∃ e, (WebAppPluginContext.init
          (mkWebCtx [] ([goodWebMod] ++ badWebMod :: []))).2 = some e ∧
      (e = webappNotAppFault ∨ e = webappBadRoutingFault) ∧
      (WebAppPluginContext.init
          (mkWebCtx [] ([goodWebMod] ++ badWebMod :: []))).1._initialized
        = false ∧
      ∀ g, (badSubApp, g) ∉
        (WebAppPluginContext.init
          (mkWebCtx [] ([goodWebMod] ++ badWebMod :: []))).1.webapps :=
  webapp_init_rejects_bad_mount [] [goodWebMod] badWebMod [] badSubApp none
    (by
      intro p hp
      simp only [List.mem_singleton] at hp
      subst hp
      rfl)
    rfl
    (Or.inr rfl)
